import Mathlib

/-!
# Shallow embedding of `src/BMI_CALCULATOR.py`

The program is a BMI calculator backed by an SQLite table `entries`.
This file embeds the parts of the program that carry state and logic:

* Python `float` values (`PyFloat`): a finite value (modelled as `ℚ`),
  NaN, or ±infinity, with IEEE comparison semantics (NaN compares false
  to everything).  Signed zero is collapsed to `0`.
* CPython's `float(str)` parsing (`pyFloatOfString`), on the grammar
  fragment `[ws] [sign] (digits [. digits] [exponent] | nan | inf | infinity) [ws]`
  (case-insensitive for the special words; digit-group underscores and
  non-ASCII digits are not modelled).
* `str.strip` (`pyStrip`), stripping ASCII whitespace at both ends.
* Python `round(x, 2)` (`pyRound2`), round-half-to-even at two decimals.
* The BMI logic `calculate_bmi_value` and `bmi_category`.
* The SQLite table as a list of `MeasurementRecord` in insertion order;
  `save_entry` appends with a store-assigned rowid, and the two queries
  `get_all_entries` (`ORDER BY timestamp DESC`) and `get_entries_for_user`
  (`WHERE name=? ORDER BY timestamp`) are modelled as stable sorts of the
  table (SQLite leaves the relative order of equal keys unspecified; a
  stable sort over the scan order realises one concrete choice).
  Timestamps are modelled at second precision as naturals: the stored
  ISO-8601 strings compare lexicographically exactly as the instants
  they denote compare chronologically.
* The GUI handler paths `validate_inputs`, `on_calculate` and
  `export_csv`, with dialogs and the file system elided: a raised
  exception is an `.error`/`none`, and the exported file is modelled as
  its header line plus its data rows (cell serialisation elided).
-/

namespace BMICalc

/-- A Python `float` value: a finite value (modelled exactly as a rational),
NaN, or ±infinity.  Signed zero is collapsed to `0`. -/
inductive PyFloat where
  | fin (q : ℚ)
  | nan
  | inf
  | ninf
deriving DecidableEq

/-- IEEE `<` on Python floats: NaN compares false to everything. -/
def PyFloat.lt : PyFloat → PyFloat → Bool
  | .nan, _ => false
  | _, .nan => false
  | .ninf, .ninf => false
  | .ninf, _ => true
  | _, .ninf => false
  | .inf, _ => false
  | _, .inf => true
  | .fin a, .fin b => decide (a < b)

/-- IEEE `≤` on Python floats: NaN compares false to everything. -/
def PyFloat.le : PyFloat → PyFloat → Bool
  | .nan, _ => false
  | _, .nan => false
  | .ninf, _ => true
  | _, .ninf => false
  | _, .inf => true
  | .inf, _ => false
  | .fin a, .fin b => decide (a ≤ b)

/-- Python `x ** 2` on floats (the only power the program takes). -/
def PyFloat.sq : PyFloat → PyFloat
  | .fin q => .fin (q ^ 2)
  | .nan => .nan
  | .inf => .inf
  | .ninf => .inf

/-- Python float division; `none` models the `ZeroDivisionError` raised on a
zero divisor.  Signed zero is collapsed, so `fin _ / ±inf` is `fin 0`. -/
def PyFloat.div (a b : PyFloat) : Option PyFloat :=
  match a, b with
  | .nan, _ => some .nan
  | _, .nan => some .nan
  | .inf, .inf => some .nan
  | .inf, .ninf => some .nan
  | .ninf, .inf => some .nan
  | .ninf, .ninf => some .nan
  | .inf, .fin y => some (if y < 0 then .ninf else .inf)
  | .ninf, .fin y => some (if y < 0 then .inf else .ninf)
  | .fin _, .inf => some (.fin 0)
  | .fin _, .ninf => some (.fin 0)
  | .fin x, .fin y => if y = 0 then none else some (.fin (x / y))

/-- The ASCII whitespace characters stripped by Python's `str.strip()`
(non-ASCII Unicode whitespace is not modelled). -/
def isPySpace (c : Char) : Bool :=
  c == ' ' || c == '\t' || c == '\n' || c == '\r' || c == '\x0b' || c == '\x0c'

/-- `str.strip()` on the character list: drop whitespace at both ends. -/
def stripChars (l : List Char) : List Char :=
  ((l.dropWhile isPySpace).reverse.dropWhile isPySpace).reverse

/-- Python's `str.strip()`. -/
def pyStrip (s : String) : String :=
  String.mk (stripChars s.data)

/-- Numeric value of a list of ASCII digits, most significant first. -/
def natOfDigits (l : List Char) : ℕ :=
  l.foldl (fun n c => 10 * n + (c.toNat - 48)) 0

/-- Consume an optional leading sign; `true` means negative. -/
def splitSign : List Char → Bool × List Char
  | '+' :: r => (false, r)
  | '-' :: r => (true, r)
  | l => (false, l)

/-- Parse `digits [. digits]` (at least one digit overall), returning the
mantissa value and the unconsumed remainder. -/
def parseMantissa (l : List Char) : Option (ℚ × List Char) :=
  let intD := l.takeWhile Char.isDigit
  let r := l.dropWhile Char.isDigit
  match r with
  | '.' :: r2 =>
    let fracD := r2.takeWhile Char.isDigit
    let r3 := r2.dropWhile Char.isDigit
    if intD.isEmpty && fracD.isEmpty then none
    else some ((natOfDigits intD : ℚ) + (natOfDigits fracD : ℚ) / 10 ^ fracD.length, r3)
  | _ => if intD.isEmpty then none else some ((natOfDigits intD : ℚ), r)

/-- Parse the optional exponent part `(e|E) [sign] digits`, which must use up
the whole remainder; returns the exponent. -/
def parseExpTail : List Char → Option ℤ
  | [] => some 0
  | c :: r =>
    if c == 'e' || c == 'E' then
      let (neg, r2) := splitSign r
      let ds := r2.takeWhile Char.isDigit
      let r3 := r2.dropWhile Char.isDigit
      if ds.isEmpty || !r3.isEmpty then none
      else some (if neg then -(natOfDigits ds : ℤ) else (natOfDigits ds : ℤ))
    else none

/-- CPython's `float(str)`: surrounding whitespace stripped, optional sign,
then either one of the special words `nan`, `inf`, `infinity`
(case-insensitive) or a decimal literal with optional exponent.
`none` models the `ValueError` raised on anything else. -/
def pyFloatOfString (s : String) : Option PyFloat :=
  let body := stripChars s.data
  let (neg, mag) := splitSign body
  let low := mag.map Char.toLower
  if low == ['n', 'a', 'n'] then some .nan
  else if low == ['i', 'n', 'f'] || low == ['i', 'n', 'f', 'i', 'n', 'i', 't', 'y'] then
    some (if neg then .ninf else .inf)
  else
    match parseMantissa mag with
    | none => none
    | some (m, rest) =>
      match parseExpTail rest with
      | none => none
      | some e => some (.fin ((if neg then -m else m) * (10 : ℚ) ^ e))

/-- Round to the nearest integer, ties to even (Python's rounding mode). -/
def roundHalfEven (q : ℚ) : ℤ :=
  if q - ⌊q⌋ < 1 / 2 then ⌊q⌋
  else if 1 / 2 < q - ⌊q⌋ then ⌊q⌋ + 1
  else if ⌊q⌋ % 2 = 0 then ⌊q⌋ else ⌊q⌋ + 1

/-- Python's `round(q, 2)` on the exact rational value. -/
def pyRound2 (q : ℚ) : ℚ :=
  (roundHalfEven (q * 100) : ℚ) / 100

/-- `round(x, 2)` lifted to Python floats (`round` fixes NaN and ±inf). -/
def PyFloat.round2 : PyFloat → PyFloat
  | .fin q => .fin (pyRound2 q)
  | x => x

/-- `calculate_bmi_value(weight, height)`: raises (`none`) when
`height <= 0`, otherwise returns `weight / height ** 2`. -/
def calculate_bmi_value (weight height : PyFloat) : Option PyFloat :=
  if height.le (.fin 0) then none
  else weight.div height.sq

/-- `bmi_category(bmi)`: the WHO category of a BMI value, with Python's
chained comparisons expanded to conjunctions. -/
def bmi_category (bmi : PyFloat) : String :=
  if bmi.lt (.fin 18.5) then "Underweight"
  else if (PyFloat.fin 18.5).le bmi && bmi.lt (.fin 25) then "Normal weight"
  else if (PyFloat.fin 25).le bmi && bmi.lt (.fin 30) then "Overweight"
  else "Obese"

/-- One row of the `entries` table.  `timestamp` is the instant of
insertion at second precision. -/
structure MeasurementRecord where
  id : ℕ
  name : String
  weight : PyFloat
  height : PyFloat
  bmi : PyFloat
  category : String
  timestamp : ℕ
deriving DecidableEq

/-- The store: the `entries` table with its rows in insertion order. -/
abbrev EntryStore := List MeasurementRecord

/-- SQLite's rowid assignment for an `INTEGER PRIMARY KEY` column with no
explicit value: one more than the largest rowid in the table. -/
def nextId (s : EntryStore) : ℕ :=
  (s.map MeasurementRecord.id).foldr max 0 + 1

/-- `save_entry`: INSERT a row with store-assigned id and the current
time `ts` (the wall clock is passed in explicitly). -/
def save_entry (s : EntryStore) (name : String) (weight height bmi : PyFloat)
    (category : String) (ts : ℕ) : EntryStore :=
  s ++ [{ id := nextId s, name := name, weight := weight, height := height,
          bmi := bmi, category := category, timestamp := ts }]

/-- The comparison behind `ORDER BY timestamp DESC`. -/
def tsDesc (a b : MeasurementRecord) : Prop :=
  b.timestamp ≤ a.timestamp

/-- The comparison behind `ORDER BY timestamp` (ascending). -/
def tsAsc (a b : MeasurementRecord) : Prop :=
  a.timestamp ≤ b.timestamp

instance : DecidableRel tsDesc := fun a b => Nat.decLe _ _

instance : DecidableRel tsAsc := fun a b => Nat.decLe _ _

instance : IsTotal MeasurementRecord tsDesc :=
  ⟨fun a b => Nat.le_total b.timestamp a.timestamp⟩

instance : IsTrans MeasurementRecord tsDesc :=
  ⟨fun _ _ _ h1 h2 => Nat.le_trans h2 h1⟩

instance : IsTotal MeasurementRecord tsAsc :=
  ⟨fun a b => Nat.le_total a.timestamp b.timestamp⟩

instance : IsTrans MeasurementRecord tsAsc :=
  ⟨fun _ _ _ h1 h2 => Nat.le_trans h1 h2⟩

/-- `get_all_entries`: `SELECT ... ORDER BY timestamp DESC`, modelled as a
stable sort of the table in scan order. -/
def get_all_entries (s : EntryStore) : List MeasurementRecord :=
  s.insertionSort tsDesc

/-- `get_entries_for_user(name)`: `SELECT ... WHERE name=? ORDER BY
timestamp`; SQLite's `=` on TEXT is exact, case-sensitive comparison. -/
def get_entries_for_user (s : EntryStore) (name : String) : List MeasurementRecord :=
  (s.filter fun r => r.name == name).insertionSort tsAsc

/-- The distinct `ValueError`s raised by `validate_inputs`, one per
message string. -/
inductive ValidationError where
  | emptyName
  | notANumber
  | weightOutOfRange
  | heightOutOfRange
deriving DecidableEq

/-- `BMIGUI.validate_inputs`: strip the name and reject it when empty,
parse both numbers (rejecting with `notANumber` when either `float(...)`
raises), then apply the two range checks in order. -/
def validate_inputs (nameText weightText heightText : String) :
    Except ValidationError (String × PyFloat × PyFloat) :=
  let name := pyStrip nameText
  if name = "" then .error .emptyName
  else
    match pyFloatOfString weightText, pyFloatOfString heightText with
    | some weight, some height =>
      if weight.le (.fin 0) || (PyFloat.fin 500).lt weight then .error .weightOutOfRange
      else if height.le (.fin 0) || (PyFloat.fin 3).lt height then .error .heightOutOfRange
      else .ok (name, weight, height)
    | _, _ => .error .notANumber

/-- `BMIGUI.on_calculate`: validate, compute the BMI, round it, classify
the unrounded value, and save; any raised exception (`none`) leaves the
store untouched.  Returns the new store on success. -/
def on_calculate (s : EntryStore) (nameText weightText heightText : String)
    (ts : ℕ) : Option EntryStore :=
  match validate_inputs nameText weightText heightText with
  | .error _ => none
  | .ok (name, weight, height) =>
    match calculate_bmi_value weight height with
    | none => none
    | some bmi =>
      some (save_entry s name weight height bmi.round2 (bmi_category bmi) ts)

/-- The header row `export_csv` writes. -/
def csvHeader : List String :=
  ["id", "name", "weight", "height", "bmi", "category", "timestamp"]

/-- `BMIGUI.export_csv`: when the store holds no rows the handler shows a
"No data" dialog and returns without creating any file (`none`);
otherwise the written file is the header line followed by the rows of
`get_all_entries` in order. -/
def export_csv (s : EntryStore) : Option (List String × List MeasurementRecord) :=
  let rows := get_all_entries s
  if rows.isEmpty then none
  else some (csvHeader, rows)

/-! ## Small computation lemmas

`Rat` arithmetic is irreducible for the elaborator, so concrete runs of the
program are evaluated in two stages: a `rfl` step reduces the string/character
layer, leaving the rational value as an unevaluated arithmetic expression, and
`norm_num` then evaluates that expression. -/

lemma fin_le_fin (a b : ℚ) : (PyFloat.fin a).le (.fin b) = decide (a ≤ b) := rfl

lemma fin_lt_fin (a b : ℚ) : (PyFloat.fin a).lt (.fin b) = decide (a < b) := rfl

lemma parse_1 : pyFloatOfString "1" = some (.fin 1) := by
  rw [show pyFloatOfString "1" = some (.fin (((1 : ℕ) : ℚ) * 10 ^ (0 : ℤ))) from rfl]
  norm_num

lemma parse_0 : pyFloatOfString "0" = some (.fin 0) := by
  rw [show pyFloatOfString "0" = some (.fin (((0 : ℕ) : ℚ) * 10 ^ (0 : ℤ))) from rfl]
  norm_num

lemma parse_3 : pyFloatOfString "3" = some (.fin 3) := by
  rw [show pyFloatOfString "3" = some (.fin (((3 : ℕ) : ℚ) * 10 ^ (0 : ℤ))) from rfl]
  norm_num

lemma parse_70 : pyFloatOfString "70" = some (.fin 70) := by
  rw [show pyFloatOfString "70" = some (.fin (((70 : ℕ) : ℚ) * 10 ^ (0 : ℤ))) from rfl]
  norm_num

lemma parse_500 : pyFloatOfString "500" = some (.fin 500) := by
  rw [show pyFloatOfString "500" = some (.fin (((500 : ℕ) : ℚ) * 10 ^ (0 : ℤ))) from rfl]
  norm_num

lemma parse_175 : pyFloatOfString "1.75" = some (.fin (7 / 4)) := by
  rw [show pyFloatOfString "1.75" =
    some (.fin ((((1 : ℕ) : ℚ) + ((75 : ℕ) : ℚ) / 10 ^ (2 : ℕ)) * 10 ^ (0 : ℤ))) from rfl]
  norm_num

lemma parse_50001 : pyFloatOfString "500.01" = some (.fin (50001 / 100)) := by
  rw [show pyFloatOfString "500.01" =
    some (.fin ((((500 : ℕ) : ℚ) + ((1 : ℕ) : ℚ) / 10 ^ (2 : ℕ)) * 10 ^ (0 : ℤ))) from rfl]
  norm_num

lemma parse_301 : pyFloatOfString "3.01" = some (.fin (301 / 100)) := by
  rw [show pyFloatOfString "3.01" =
    some (.fin ((((3 : ℕ) : ℚ) + ((1 : ℕ) : ℚ) / 10 ^ (2 : ℕ)) * 10 ^ (0 : ℤ))) from rfl]
  norm_num

lemma parse_24999 : pyFloatOfString "24.999" = some (.fin (24999 / 1000)) := by
  rw [show pyFloatOfString "24.999" =
    some (.fin ((((24 : ℕ) : ℚ) + ((999 : ℕ) : ℚ) / 10 ^ (3 : ℕ)) * 10 ^ (0 : ℤ))) from rfl]
  norm_num

lemma parse_nan : pyFloatOfString "nan" = some .nan := rfl

lemma parse_inf : pyFloatOfString "inf" = some .inf := rfl

lemma parse_abc : pyFloatOfString "abc" = none := rfl

lemma validate_bob : validate_inputs "Bob" "70" "1.75" = .ok ("Bob", .fin 70, .fin (7 / 4)) := by
  unfold validate_inputs
  rw [if_neg (by decide : ¬ (pyStrip "Bob" = "")), parse_70, parse_175]
  norm_num [PyFloat.le, PyFloat.lt]
  decide

lemma validate_spaced :
    validate_inputs " Bob " "70" "1.75" = .ok ("Bob", .fin 70, .fin (7 / 4)) := by
  unfold validate_inputs
  rw [if_neg (by decide : ¬ (pyStrip " Bob " = "")), parse_70, parse_175]
  norm_num [PyFloat.le, PyFloat.lt]
  decide

lemma validate_nan : validate_inputs "Bob" "nan" "1.75" = .ok ("Bob", .nan, .fin (7 / 4)) := by
  unfold validate_inputs
  rw [if_neg (by decide : ¬ (pyStrip "Bob" = "")), parse_nan, parse_175]
  norm_num [PyFloat.le, PyFloat.lt]
  decide

lemma validate_inf : validate_inputs "Bob" "inf" "1.75" = .error .weightOutOfRange := rfl

lemma validate_abc : validate_inputs "Bob" "abc" "1.75" = .error .notANumber := rfl

lemma validate_blank : validate_inputs "   " "70" "1.75" = .error .emptyName := rfl

lemma validate_w0 : validate_inputs "Bob" "0" "1.75" = .error .weightOutOfRange := by
  unfold validate_inputs
  rw [if_neg (by decide : ¬ (pyStrip "Bob" = "")), parse_0, parse_175]
  norm_num [PyFloat.le, PyFloat.lt]

lemma validate_w50001 : validate_inputs "Bob" "500.01" "1.75" = .error .weightOutOfRange := by
  unfold validate_inputs
  rw [if_neg (by decide : ¬ (pyStrip "Bob" = "")), parse_50001, parse_175]
  norm_num [PyFloat.le, PyFloat.lt]

lemma validate_h301 : validate_inputs "Bob" "70" "3.01" = .error .heightOutOfRange := by
  unfold validate_inputs
  rw [if_neg (by decide : ¬ (pyStrip "Bob" = "")), parse_70, parse_301]
  norm_num [PyFloat.le, PyFloat.lt]

lemma validate_edge : validate_inputs "Bob" "500" "3" = .ok ("Bob", .fin 500, .fin 3) := by
  unfold validate_inputs
  rw [if_neg (by decide : ¬ (pyStrip "Bob" = "")), parse_500, parse_3]
  norm_num [PyFloat.le, PyFloat.lt]
  decide

lemma validate_24999 : validate_inputs "Bob" "24.999" "1" = .ok ("Bob", .fin (24999 / 1000), .fin 1) := by
  unfold validate_inputs
  rw [if_neg (by decide : ¬ (pyStrip "Bob" = "")), parse_24999, parse_1]
  norm_num [PyFloat.le, PyFloat.lt]
  decide

lemma calc_70 : calculate_bmi_value (.fin 70) (.fin (7 / 4)) = some (.fin (1120 / 49)) := by
  unfold calculate_bmi_value PyFloat.sq PyFloat.div
  norm_num [PyFloat.le]

lemma round2_bob : (PyFloat.fin (1120 / 49)).round2 = .fin (2286 / 100) := by
  unfold PyFloat.round2 pyRound2 roundHalfEven
  norm_num

lemma cat_bob : bmi_category (.fin (1120 / 49)) = "Normal weight" := by
  unfold bmi_category
  norm_num [PyFloat.le, PyFloat.lt]

lemma calc_24999 : calculate_bmi_value (.fin (24999 / 1000)) (.fin 1) = some (.fin (24999 / 1000)) := by
  unfold calculate_bmi_value PyFloat.sq PyFloat.div
  norm_num [PyFloat.le]

lemma round2_24999 : (PyFloat.fin (24999 / 1000)).round2 = .fin 25 := by
  unfold PyFloat.round2 pyRound2 roundHalfEven
  norm_num

lemma cat_24999 : bmi_category (.fin (24999 / 1000)) = "Normal weight" := by
  unfold bmi_category
  norm_num [PyFloat.le, PyFloat.lt]

lemma on_calc_bob : on_calculate [] "Bob" "70" "1.75" 5 =
    some [⟨1, "Bob", .fin 70, .fin (7 / 4), .fin (2286 / 100), "Normal weight", 5⟩] := by
  unfold on_calculate
  rw [validate_bob]
  dsimp only
  rw [calc_70]
  dsimp only
  rw [round2_bob, cat_bob]
  rfl

lemma on_calc_spaced : on_calculate [] " Bob " "70" "1.75" 5 =
    some [⟨1, "Bob", .fin 70, .fin (7 / 4), .fin (2286 / 100), "Normal weight", 5⟩] := by
  unfold on_calculate
  rw [validate_spaced]
  dsimp only
  rw [calc_70]
  dsimp only
  rw [round2_bob, cat_bob]
  rfl

lemma on_calc_24999 : on_calculate [] "Bob" "24.999" "1" 0 =
    some [⟨1, "Bob", .fin (24999 / 1000), .fin 1, .fin 25, "Normal weight", 0⟩] := by
  unfold on_calculate
  rw [validate_24999]
  dsimp only
  rw [calc_24999]
  dsimp only
  rw [round2_24999, cat_24999]
  rfl

/-! ## Inversion lemmas for the submit path -/

lemma validate_ok_inv {nt wt ht n : String} {w h : PyFloat}
    (hv : validate_inputs nt wt ht = .ok (n, w, h)) :
    n = pyStrip nt ∧ pyStrip nt ≠ "" := by
  simp only [validate_inputs] at hv
  by_cases hn : pyStrip nt = ""
  · rw [if_pos hn] at hv; exact absurd hv (by simp)
  · rw [if_neg hn] at hv
    refine ⟨?_, hn⟩
    cases hw : pyFloatOfString wt with
    | none => rw [hw] at hv; exact absurd hv (by simp)
    | some w' =>
      cases hh : pyFloatOfString ht with
      | none => rw [hw, hh] at hv; exact absurd hv (by simp)
      | some h' =>
        rw [hw, hh] at hv
        dsimp only at hv
        split_ifs at hv ; simp at hv
        exact hv.1.symm

lemma on_calculate_ok_inv {s s' : EntryStore} {nt wt ht : String} {ts : ℕ}
    (hc : on_calculate s nt wt ht ts = some s') :
    ∃ n w h b, validate_inputs nt wt ht = .ok (n, w, h) ∧
      calculate_bmi_value w h = some b ∧
      s' = save_entry s n w h b.round2 (bmi_category b) ts := by
  unfold on_calculate at hc
  cases hv : validate_inputs nt wt ht with
  | error e => rw [hv] at hc; exact absurd hc (by simp)
  | ok triple =>
    obtain ⟨n, w, h⟩ := triple
    rw [hv] at hc
    dsimp only at hc
    cases hb : calculate_bmi_value w h with
    | none => rw [hb] at hc; exact absurd hc (by simp)
    | some b =>
      rw [hb] at hc
      dsimp only at hc
      exact ⟨n, w, h, b, rfl, hb, (Option.some.inj hc).symm⟩

lemma on_calculate_validate_err {s : EntryStore} {nt wt ht : String} {ts : ℕ}
    {e : ValidationError} (hv : validate_inputs nt wt ht = .error e) :
    on_calculate s nt wt ht ts = none := by
  unfold on_calculate
  rw [hv]

/-! ## Whitespace stripping is idempotent -/

lemma dropWhile_idem (p : Char → Bool) (l : List Char) :
    (l.dropWhile p).dropWhile p = l.dropWhile p := by
  induction l with
  | nil => rfl
  | cons a t ih =>
    by_cases h : p a
    · simp [List.dropWhile_cons, h, ih]
    · simp [List.dropWhile_cons, h]

lemma dropWhile_head_false {p : Char → Bool} {l : List Char} {c : Char} {t : List Char}
    (h : l.dropWhile p = c :: t) : p c = false := by
  induction l with
  | nil => simp at h
  | cons a t' ih =>
    by_cases ha : p a
    · rw [List.dropWhile_cons, if_pos ha] at h; exact ih h
    · rw [List.dropWhile_cons, if_neg ha] at h
      obtain ⟨rfl, -⟩ := List.cons.inj h
      exact Bool.not_eq_true _ ▸ ha

lemma dropWhile_append_last {p : Char → Bool} {c : Char} (hc : p c = false)
    (l : List Char) : ∃ S, (l ++ [c]).dropWhile p = S ++ [c] := by
  induction l with
  | nil => exact ⟨[], by simp [List.dropWhile_cons, hc]⟩
  | cons a t ih =>
    by_cases h : p a
    · obtain ⟨S, hS⟩ := ih
      exact ⟨S, by simp [List.dropWhile_cons, h, hS]⟩
    · exact ⟨a :: t, by simp [List.dropWhile_cons, h]⟩

lemma stripChars_idem (l : List Char) : stripChars (stripChars l) = stripChars l := by
  unfold stripChars
  cases hA : l.dropWhile isPySpace with
  | nil => simp
  | cons c t =>
    have hc : isPySpace c = false := dropWhile_head_false hA
    have hrev : (c :: t).reverse = t.reverse ++ [c] := by simp
    obtain ⟨S, hS⟩ := dropWhile_append_last hc t.reverse
    rw [hrev, hS]
    have h1 : (S ++ [c]).reverse.dropWhile isPySpace = (S ++ [c]).reverse := by
      have h2 : (S ++ [c]).reverse = c :: S.reverse := by simp
      rw [h2, List.dropWhile_cons, if_neg (by simp [hc])]
    rw [h1, List.reverse_reverse, ← hS, dropWhile_idem]

lemma pyStrip_idem (s : String) : pyStrip (pyStrip s) = pyStrip s := by
  unfold pyStrip
  rw [show (String.mk (stripChars s.data)).data = stripChars s.data from rfl]
  rw [stripChars_idem]

lemma cat_25 : bmi_category (.fin 25) = "Overweight" := by
  unfold bmi_category
  norm_num [PyFloat.le, PyFloat.lt]

/-! ## Claim theorems -/

/-- C2: `bmi_category` realises the half-open-interval partition of the
rationals with boundaries 18.5, 25, 30 — Underweight below 18.5, Normal
weight on [18.5, 25), Overweight on [25, 30), Obese from 30 up — and in
particular maps 18.5 and 24.999 to Normal weight, 25 to Overweight and
30 to Obese. -/
theorem bmi_category_partition :
    (∀ b : ℚ, b < 18.5 → bmi_category (.fin b) = "Underweight") ∧
    (∀ b : ℚ, 18.5 ≤ b → b < 25 → bmi_category (.fin b) = "Normal weight") ∧
    (∀ b : ℚ, 25 ≤ b → b < 30 → bmi_category (.fin b) = "Overweight") ∧
    (∀ b : ℚ, 30 ≤ b → bmi_category (.fin b) = "Obese") ∧
    bmi_category (.fin 18.5) = "Normal weight" ∧
    bmi_category (.fin (24999 / 1000)) = "Normal weight" ∧
    bmi_category (.fin 25) = "Overweight" ∧
    bmi_category (.fin 30) = "Obese" := by
  have hu : ∀ b : ℚ, b < 18.5 → bmi_category (.fin b) = "Underweight" := by
    intro b hb
    simp only [bmi_category, fin_lt_fin, fin_le_fin, Bool.and_eq_true, decide_eq_true_eq]
    rw [if_pos hb]
  have hn : ∀ b : ℚ, 18.5 ≤ b → b < 25 → bmi_category (.fin b) = "Normal weight" := by
    intro b h1 h2
    simp only [bmi_category, fin_lt_fin, fin_le_fin, Bool.and_eq_true, decide_eq_true_eq]
    rw [if_neg (not_lt.mpr h1), if_pos ⟨h1, h2⟩]
  have ho : ∀ b : ℚ, 25 ≤ b → b < 30 → bmi_category (.fin b) = "Overweight" := by
    intro b h1 h2
    simp only [bmi_category, fin_lt_fin, fin_le_fin, Bool.and_eq_true, decide_eq_true_eq]
    rw [if_neg (not_lt.mpr (le_trans (by norm_num) h1)),
      if_neg (fun hx => absurd h1 (not_le.mpr hx.2)), if_pos ⟨h1, h2⟩]
  have hb : ∀ b : ℚ, 30 ≤ b → bmi_category (.fin b) = "Obese" := by
    intro b h1
    simp only [bmi_category, fin_lt_fin, fin_le_fin, Bool.and_eq_true, decide_eq_true_eq]
    rw [if_neg (not_lt.mpr (le_trans (by norm_num) h1)),
      if_neg (fun hx => absurd hx.2 (not_lt.mpr (le_trans (by norm_num) h1))),
      if_neg (fun hx => absurd hx.2 (not_lt.mpr h1))]
  refine ⟨hu, hn, ho, hb, ?_, ?_, ?_, ?_⟩
  · exact hn 18.5 le_rfl (by norm_num)
  · exact hn (24999 / 1000) (by norm_num) (by norm_num)
  · exact ho 25 le_rfl (by norm_num)
  · exact hb 30 le_rfl

/-- Witness for C2: the partition theorem applied at concrete BMI values
in the interior of each interval. -/
theorem bmi_category_partition_witness :
    bmi_category (.fin 10) = "Underweight" ∧
    bmi_category (.fin 20) = "Normal weight" ∧
    bmi_category (.fin 27) = "Overweight" ∧
    bmi_category (.fin 35) = "Obese" :=
  ⟨bmi_category_partition.1 10 (by norm_num),
   bmi_category_partition.2.1 20 (by norm_num) (by norm_num),
   bmi_category_partition.2.2.1 27 (by norm_num) (by norm_num),
   bmi_category_partition.2.2.2.1 35 (by norm_num)⟩

/-- C6 (amended): `get_all_entries` returns a permutation of the whole
store, sorted so timestamps are non-increasing (descending by
`recordedAt`), and the empty sequence for an empty store.  The `id
descending` tie-break of the original claim is refuted separately: the
query has no tie-break, and in the model ties keep insertion order. -/
theorem listAll_sorted_desc (s : EntryStore) :
    (get_all_entries s).Perm s ∧
    List.Sorted tsDesc (get_all_entries s) ∧
    (s = [] → get_all_entries s = []) := by
  refine ⟨List.perm_insertionSort _ _, List.sorted_insertionSort _ _, ?_⟩
  rintro rfl
  rfl

/-- Witness for C6: the amended theorem applied to a concrete two-record
store and to the empty store. -/
theorem listAll_sorted_desc_witness :
    (get_all_entries [⟨1, "A", .fin 1, .fin 1, .fin 1, "x", 3⟩,
        ⟨2, "B", .fin 2, .fin 2, .fin 2, "y", 9⟩]).Perm
      [⟨1, "A", .fin 1, .fin 1, .fin 1, "x", 3⟩,
        ⟨2, "B", .fin 2, .fin 2, .fin 2, "y", 9⟩] ∧
    List.Sorted tsDesc (get_all_entries [⟨1, "A", .fin 1, .fin 1, .fin 1, "x", 3⟩,
        ⟨2, "B", .fin 2, .fin 2, .fin 2, "y", 9⟩]) ∧
    get_all_entries ([] : EntryStore) = [] :=
  ⟨(listAll_sorted_desc _).1, (listAll_sorted_desc _).2.1,
   (listAll_sorted_desc []).2.2 rfl⟩

/-- Counterexample for C6: two records with equal timestamps come back
from `get_all_entries` in insertion order (ids ascending), not with the
claimed id-descending tie-break. -/
theorem listAll_equal_timestamps_keep_insertion_order :
    get_all_entries [⟨1, "A", .fin 1, .fin 1, .fin 1, "x", 7⟩,
        ⟨2, "B", .fin 2, .fin 2, .fin 2, "y", 7⟩] =
      [⟨1, "A", .fin 1, .fin 1, .fin 1, "x", 7⟩,
        ⟨2, "B", .fin 2, .fin 2, .fin 2, "y", 7⟩] ∧
    get_all_entries [⟨1, "A", .fin 1, .fin 1, .fin 1, "x", 7⟩,
        ⟨2, "B", .fin 2, .fin 2, .fin 2, "y", 7⟩] ≠
      [⟨2, "B", .fin 2, .fin 2, .fin 2, "y", 7⟩,
        ⟨1, "A", .fin 1, .fin 1, .fin 1, "x", 7⟩] := by
  decide

/-- C7: `get_entries_for_user` returns exactly the records whose name
equals the requested name (exact, case-sensitive comparison), as a
permutation of the filtered store sorted ascending by timestamp, and the
empty sequence when no record matches — for every store, hence for any
interleaving of insertions across subjects. -/
theorem listBySubject_exact_match_asc (s : EntryStore) (n : String) :
    (∀ r ∈ get_entries_for_user s n, r.name = n) ∧
    (get_entries_for_user s n).Perm (s.filter fun r => r.name == n) ∧
    List.Sorted tsAsc (get_entries_for_user s n) ∧
    ((∀ r ∈ s, r.name ≠ n) → get_entries_for_user s n = []) := by
  have hperm : (get_entries_for_user s n).Perm (s.filter fun r => r.name == n) :=
    List.perm_insertionSort _ _
  refine ⟨?_, hperm, List.sorted_insertionSort _ _, ?_⟩
  · intro r hr
    have hmem : r ∈ s.filter (fun r => r.name == n) := hperm.mem_iff.mp hr
    have h2 := (List.mem_filter.mp hmem).2
    simpa using h2
  · intro hnone
    have hfil : s.filter (fun r => r.name == n) = [] :=
      List.filter_eq_nil_iff.mpr fun r hr => by
        simp only [beq_iff_eq]
        exact hnone r hr
    unfold get_entries_for_user
    rw [hfil]
    rfl

/-- Witness for C7: the theorem applied to a concrete mixed store for
subject "Alice" and to a store without her. -/
theorem listBySubject_exact_match_asc_witness :
    (⟨1, "Alice", .fin 1, .fin 1, .fin 1, "x", 9⟩ : MeasurementRecord).name = "Alice" ∧
    get_entries_for_user [⟨2, "Bob", .fin 2, .fin 2, .fin 2, "y", 4⟩] "Alice" = [] :=
  ⟨(listBySubject_exact_match_asc
      [⟨1, "Alice", .fin 1, .fin 1, .fin 1, "x", 9⟩,
        ⟨2, "Bob", .fin 2, .fin 2, .fin 2, "y", 4⟩] "Alice").1
      ⟨1, "Alice", .fin 1, .fin 1, .fin 1, "x", 9⟩ (by decide),
   (listBySubject_exact_match_asc
      [⟨2, "Bob", .fin 2, .fin 2, .fin 2, "y", 4⟩] "Alice").2.2.2 (by decide)⟩

/-- C8: a record inserted by `save_entry` is read back by
`get_all_entries` with identical name, weight, height, bmi and category
fields. -/
theorem insert_roundtrip (s : EntryStore) (name : String) (w h bmi : PyFloat)
    (cat : String) (ts : ℕ) :
    ∃ r ∈ get_all_entries (save_entry s name w h bmi cat ts),
      r.name = name ∧ r.weight = w ∧ r.height = h ∧ r.bmi = bmi ∧ r.category = cat := by
  refine ⟨⟨nextId s, name, w, h, bmi, cat, ts⟩, ?_, rfl, rfl, rfl, rfl, rfl⟩
  unfold get_all_entries save_entry
  rw [List.mem_insertionSort]
  exact List.mem_append_right _ (List.mem_singleton.mpr rfl)

/-- C9 (amended): exporting an empty store writes no file at all — the
handler returns early — while a non-empty store exports the header row
`id,name,weight,height,bmi,category,timestamp` followed by one data row
per record. -/
theorem export_header_and_rows (s : EntryStore) :
    (s = [] → export_csv s = none) ∧
    (s ≠ [] → export_csv s = some (csvHeader, get_all_entries s) ∧
      (get_all_entries s).Perm s) := by
  constructor
  · rintro rfl
    rfl
  · intro hs
    have hp : (get_all_entries s).Perm s := List.perm_insertionSort _ _
    have hne : ¬ ((get_all_entries s).isEmpty = true) := by
      rw [List.isEmpty_iff]
      intro h0
      have hp2 := hp
      rw [h0] at hp2
      exact hs (List.perm_nil.mp hp2.symm)
    unfold export_csv
    rw [if_neg hne]
    exact ⟨rfl, hp⟩

/-- Witness for C9: the amended theorem applied to the empty store and to
a concrete one-record store. -/
theorem export_header_and_rows_witness :
    export_csv ([] : EntryStore) = none ∧
    export_csv [⟨1, "A", .fin 1, .fin 1, .fin 1, "x", 0⟩] =
      some (csvHeader, get_all_entries [⟨1, "A", .fin 1, .fin 1, .fin 1, "x", 0⟩]) :=
  ⟨(export_header_and_rows []).1 rfl,
   ((export_header_and_rows [⟨1, "A", .fin 1, .fin 1, .fin 1, "x", 0⟩]).2 (by simp)).1⟩

/-- Counterexample for C9: exporting the empty store produces no file,
not a file holding exactly the header row. -/
theorem export_empty_writes_nothing :
    export_csv ([] : EntryStore) = none ∧
    export_csv ([] : EntryStore) ≠ some (csvHeader, []) := by
  decide

/-- C5: validation trims the name of surrounding whitespace, fails with
`emptyName` exactly when the trimmed name is empty, and on success
returns the trimmed name. -/
theorem empty_name_iff_trimmed_blank (nt wt ht : String) :
    (validate_inputs nt wt ht = .error .emptyName ↔ pyStrip nt = "") ∧
    (∀ n w h, validate_inputs nt wt ht = .ok (n, w, h) → n = pyStrip nt) := by
  constructor
  · unfold validate_inputs
    by_cases hn : pyStrip nt = ""
    · rw [if_pos hn]
      simp [hn]
    · rw [if_neg hn]
      simp only [hn, iff_false]
      cases hw : pyFloatOfString wt with
      | none => simp
      | some w' =>
        cases hh : pyFloatOfString ht with
        | none => simp
        | some h' =>
          dsimp only
          split_ifs <;> simp
  · intro n w h hv
    exact (validate_ok_inv hv).1

/-- Witness for C5: a whitespace-only name is rejected with `emptyName`,
and a successful validation of `" Bob "` returns the trimmed `"Bob"`. -/
theorem empty_name_iff_trimmed_blank_witness :
    validate_inputs "   " "70" "1.75" = .error .emptyName ∧ "Bob" = pyStrip " Bob " :=
  ⟨(empty_name_iff_trimmed_blank "   " "70" "1.75").1.mpr (by decide),
   (empty_name_iff_trimmed_blank " Bob " "70" "1.75").2 "Bob" (.fin 70) (.fin (7 / 4))
     validate_spaced⟩

/-- C3 (amended): a validation failure creates no record, and
`notANumber` is raised exactly when one of the numeric texts fails to
parse as a Python float at all; texts parsing to NaN or ±infinity do
parse, so they are not rejected with `notANumber`. -/
theorem notANumber_iff_parse_failure :
    (∀ (s : EntryStore) (nt wt ht : String) (ts : ℕ) (e : ValidationError),
      validate_inputs nt wt ht = .error e → on_calculate s nt wt ht ts = none) ∧
    (∀ nt wt ht : String, pyStrip nt ≠ "" →
      (validate_inputs nt wt ht = .error .notANumber ↔
        pyFloatOfString wt = none ∨ pyFloatOfString ht = none)) := by
  constructor
  · intro s nt wt ht ts e hv
    exact on_calculate_validate_err hv
  · intro nt wt ht hn
    unfold validate_inputs
    rw [if_neg hn]
    cases hw : pyFloatOfString wt with
    | none => simp
    | some w' =>
      cases hh : pyFloatOfString ht with
      | none => simp
      | some h' =>
        dsimp only
        split_ifs <;> simp

/-- Witness for C3: the non-numeric weight `"abc"` is rejected with
`notANumber` and stores nothing. -/
theorem notANumber_iff_parse_failure_witness :
    validate_inputs "Bob" "abc" "1.75" = .error .notANumber ∧
    on_calculate [] "Bob" "abc" "1.75" 0 = none :=
  ⟨(notANumber_iff_parse_failure.2 "Bob" "abc" "1.75" (by decide)).mpr (Or.inl parse_abc),
   notANumber_iff_parse_failure.1 [] "Bob" "abc" "1.75" 0 .notANumber
     ((notANumber_iff_parse_failure.2 "Bob" "abc" "1.75" (by decide)).mpr
       (Or.inl parse_abc))⟩

/-- Counterexample for C3: the weight text `"nan"` parses to a non-finite
value yet validation accepts it outright, and `"inf"` is rejected with
`weightOutOfRange`, not with `notANumber`. -/
theorem nan_and_inf_not_rejected_as_notANumber :
    validate_inputs "Bob" "nan" "1.75" = .ok ("Bob", .nan, .fin (7 / 4)) ∧
    validate_inputs "Bob" "inf" "1.75" = .error .weightOutOfRange ∧
    validate_inputs "Bob" "nan" "1.75" ≠ .error .notANumber := by
  refine ⟨validate_nan, validate_inf, ?_⟩
  rw [validate_nan]
  simp

/-- C4: on finite numeric inputs with a non-blank name, validation fails
with `weightOutOfRange` exactly when `0 < weight ≤ 500` fails, and with
`heightOutOfRange` exactly when the weight is in range but
`0 < height ≤ 3` fails; in particular weight 0 and 500.01 and height
3.01 are rejected while weight 500 with height 3 is accepted. -/
theorem range_checks (nt wt ht : String) (w h : ℚ) (hn : pyStrip nt ≠ "")
    (hw : pyFloatOfString wt = some (.fin w)) (hh : pyFloatOfString ht = some (.fin h)) :
    ((validate_inputs nt wt ht = .error .weightOutOfRange) ↔ ¬ (0 < w ∧ w ≤ 500)) ∧
    ((validate_inputs nt wt ht = .error .heightOutOfRange) ↔
      ((0 < w ∧ w ≤ 500) ∧ ¬ (0 < h ∧ h ≤ 3))) ∧
    validate_inputs "Bob" "0" "1.75" = .error .weightOutOfRange ∧
    validate_inputs "Bob" "500.01" "1.75" = .error .weightOutOfRange ∧
    validate_inputs "Bob" "70" "3.01" = .error .heightOutOfRange ∧
    validate_inputs "Bob" "500" "3" = .ok ("Bob", .fin 500, .fin 3) := by
  have c1 : (((PyFloat.fin w).le (.fin 0) || (PyFloat.fin 500).lt (.fin w)) = true) ↔
      (w ≤ 0 ∨ 500 < w) := by
    simp [fin_le_fin, fin_lt_fin]
  have c2 : (((PyFloat.fin h).le (.fin 0) || (PyFloat.fin 3).lt (.fin h)) = true) ↔
      (h ≤ 0 ∨ 3 < h) := by
    simp [fin_le_fin, fin_lt_fin]
  by_cases h1 : 0 < w ∧ w ≤ 500
  · have nc1 : ¬ (((PyFloat.fin w).le (.fin 0) || (PyFloat.fin 500).lt (.fin w)) = true) :=
      fun hx => not_or.mpr ⟨not_le.mpr h1.1, not_lt.mpr h1.2⟩ (c1.mp hx)
    by_cases h2 : 0 < h ∧ h ≤ 3
    · have nc2 : ¬ (((PyFloat.fin h).le (.fin 0) || (PyFloat.fin 3).lt (.fin h)) = true) :=
        fun hx => not_or.mpr ⟨not_le.mpr h2.1, not_lt.mpr h2.2⟩ (c2.mp hx)
      have hv : validate_inputs nt wt ht = .ok (pyStrip nt, .fin w, .fin h) := by
        unfold validate_inputs
        rw [if_neg hn, hw, hh]
        dsimp only
        rw [if_neg nc1, if_neg nc2]
      refine ⟨iff_of_false (by simp [hv]) (not_not_intro h1),
        iff_of_false (by simp [hv]) (fun hx => hx.2 h2),
        validate_w0, validate_w50001, validate_h301, validate_edge⟩
    · have pc2 : (((PyFloat.fin h).le (.fin 0) || (PyFloat.fin 3).lt (.fin h)) = true) := by
        refine c2.mpr ?_
        rcases not_and_or.mp h2 with hx | hx
        · exact Or.inl (not_lt.mp hx)
        · exact Or.inr (not_le.mp hx)
      have hv : validate_inputs nt wt ht = .error .heightOutOfRange := by
        unfold validate_inputs
        rw [if_neg hn, hw, hh]
        dsimp only
        rw [if_neg nc1, if_pos pc2]
      refine ⟨iff_of_false (by simp [hv]) (not_not_intro h1),
        iff_of_true hv ⟨h1, h2⟩,
        validate_w0, validate_w50001, validate_h301, validate_edge⟩
  · have pc1 : (((PyFloat.fin w).le (.fin 0) || (PyFloat.fin 500).lt (.fin w)) = true) := by
      refine c1.mpr ?_
      rcases not_and_or.mp h1 with hx | hx
      · exact Or.inl (not_lt.mp hx)
      · exact Or.inr (not_le.mp hx)
    have hv : validate_inputs nt wt ht = .error .weightOutOfRange := by
      unfold validate_inputs
      rw [if_neg hn, hw, hh]
      dsimp only
      rw [if_pos pc1]
    refine ⟨iff_of_true hv h1, iff_of_false (by simp [hv]) (fun hx => h1 hx.1),
      validate_w0, validate_w50001, validate_h301, validate_edge⟩

/-- Witness for C4: the range-check theorem applied to the concrete
inputs weight 70, height 3.01. -/
theorem range_checks_witness :
    validate_inputs "Bob" "70" "3.01" = .error .heightOutOfRange :=
  (range_checks "Bob" "70" "3.01" 70 (301 / 100) (by decide) parse_70 parse_301).2.1.mpr
    ⟨⟨by norm_num, by norm_num⟩, by norm_num⟩

/-- C1 (amended): the record persisted by a successful submit carries
`bmi = round(weight / height ** 2, 2)` but `category` classified from
the unrounded quotient, so the stored category can disagree with
`bmi_category` of the stored rounded bmi when rounding crosses a
category boundary. -/
theorem category_from_unrounded_bmi (s : EntryStore) (nt wt ht : String) (ts : ℕ)
    (s' : EntryStore) (hc : on_calculate s nt wt ht ts = some s') :
    ∃ r b, s' = s ++ [r] ∧ calculate_bmi_value r.weight r.height = some b ∧
      r.bmi = b.round2 ∧ r.category = bmi_category b := by
  obtain ⟨n, w, h, b, hv, hb, hs'⟩ := on_calculate_ok_inv hc
  refine ⟨⟨nextId s, n, w, h, b.round2, bmi_category b, ts⟩, b, ?_, hb, rfl, rfl⟩
  rw [hs']
  rfl

/-- Witness for C1: the amended theorem applied to the concrete submit of
weight 70, height 1.75 (bmi 22.86, Normal weight). -/
theorem category_from_unrounded_bmi_witness :
    ∃ r b, [(⟨1, "Bob", .fin 70, .fin (7 / 4), .fin (2286 / 100), "Normal weight", 5⟩ :
        MeasurementRecord)] = [] ++ [r] ∧
      calculate_bmi_value r.weight r.height = some b ∧
      r.bmi = b.round2 ∧ r.category = bmi_category b :=
  category_from_unrounded_bmi [] "Bob" "70" "1.75" 5 _ on_calc_bob

/-- Counterexample for C1: submitting weight 24.999 at height 1 stores
bmi 25.0 with category "Normal weight", while classifying the stored bmi
25.0 gives "Overweight" — the claimed consistency invariant fails. -/
theorem stored_category_disagrees_with_classify_of_stored_bmi :
    on_calculate [] "Bob" "24.999" "1" 0 =
      some [⟨1, "Bob", .fin (24999 / 1000), .fin 1, .fin 25, "Normal weight", 0⟩] ∧
    bmi_category (.fin 25) = "Overweight" ∧
    ("Normal weight" : String) ≠ "Overweight" :=
  ⟨on_calc_24999, cat_25, by decide⟩

/-- C10: every record persisted by the submit path stores the validated,
trimmed name — non-empty and free of surrounding whitespace — and the
exact-match lookup `get_entries_for_user` with that name finds it. -/
theorem submit_persists_trimmed_name (s : EntryStore) (nt wt ht : String) (ts : ℕ)
    (s' : EntryStore) (hc : on_calculate s nt wt ht ts = some s') :
    ∃ r, s' = s ++ [r] ∧ r.name = pyStrip nt ∧ r.name ≠ "" ∧
      pyStrip r.name = r.name ∧ r ∈ get_entries_for_user s' r.name := by
  obtain ⟨n, w, h, b, hv, hb, hs'⟩ := on_calculate_ok_inv hc
  obtain ⟨hname, hne⟩ := validate_ok_inv hv
  refine ⟨⟨nextId s, n, w, h, b.round2, bmi_category b, ts⟩, by rw [hs']; rfl, hname,
    ?_, ?_, ?_⟩
  · show n ≠ ""
    rw [hname]
    exact hne
  · show pyStrip n = n
    rw [hname, pyStrip_idem]
  · have hr : (⟨nextId s, n, w, h, b.round2, bmi_category b, ts⟩ : MeasurementRecord) ∈ s' := by
      rw [hs']
      unfold save_entry
      exact List.mem_append_right _ (List.mem_singleton.mpr rfl)
    unfold get_entries_for_user
    rw [List.mem_insertionSort]
    exact List.mem_filter.mpr ⟨hr, by simp⟩

/-- Witness for C10: the theorem applied to a concrete submit with the
padded name `" Bob "`. -/
theorem submit_persists_trimmed_name_witness :
    ∃ r, [(⟨1, "Bob", .fin 70, .fin (7 / 4), .fin (2286 / 100), "Normal weight", 5⟩ :
        MeasurementRecord)] = [] ++ [r] ∧ r.name = pyStrip " Bob " ∧ r.name ≠ "" ∧
      pyStrip r.name = r.name ∧
      r ∈ get_entries_for_user
        [(⟨1, "Bob", .fin 70, .fin (7 / 4), .fin (2286 / 100), "Normal weight", 5⟩ :
          MeasurementRecord)] r.name :=
  submit_persists_trimmed_name [] " Bob " "70" "1.75" 5 _ on_calc_spaced

end BMICalc
